import Mathlib

/-!
Shallow embedding of `drf_auth_email` (src/src/drf_auth_email/views.py):
email-based account lifecycle actions built on one-time action codes.

The storage layer is modelled as an explicit `DB` state record threaded
through every request handler; each Django view method becomes a Lean
function `DB → inputs → DB × Except Failure α`.  Machinery that the
repository keeps outside views.py (the `models.py` code-validation methods
and the serializer classes) is modelled from the spec, each such definition
carrying a doc comment that says so.
-/

/-- A user row.  The external user directory (spec section 6) exposes
`email` (unique, mutable), `is_verified`, `is_active` and a password
credential with check/set; the credential is modelled as a stored string
compared for equality. -/
structure User where
  id : Nat
  email : String
  is_verified : Bool
  is_active : Bool
  password : String
deriving Repr, DecidableEq

/-- One outstanding action code row (signup and password-reset kinds).
Fields follow the spec data model: opaque code string, owning user,
expiry, audit ip address, continuation link. -/
structure ActionCode where
  code : String
  userId : Nat
  expires_at : Nat
  ipaddr : String
  link : String
deriving Repr, DecidableEq

/-- An email-change code row: like `ActionCode` but additionally carrying
the candidate `new_email` payload. -/
structure EmailChangeCode where
  code : String
  userId : Nat
  expires_at : Nat
  ipaddr : String
  link : String
  new_email : String
deriving Repr, DecidableEq

/-- The whole storage state: users, the three per-kind code namespaces,
bearer tokens (`(user id, key)` pairs) and the outbox of dispatched emails
(`(template kind, recipient, raw code)` triples, fire-and-forget). -/
structure DB where
  users : List User
  signupCodes : List ActionCode
  passwordResetCodes : List ActionCode
  emailChangeCodes : List EmailChangeCode
  tokens : List (Nat × String)
  outbox : List (String × String × String)
deriving Repr, DecidableEq

/-- Internal cause of an `InvalidCode` failure: the spec keeps "not found"
and "expired" distinct internally while surfacing both as the same
HTTP-400 class. -/
inductive InvalidCode where
  | notFound
  | expired
deriving Repr, DecidableEq

/-- Structured failure results of the request handlers (spec section 7
taxonomy).  `badInput` stands for a serializer validation failure (the
serializer itself is an out-of-scope collaborator). -/
inductive Failure where
  | invalidCode (cause : InvalidCode)
  | emailTaken
  | passwordMismatch
  | notAllowed
  | badInput
  | invalidCredentials
  | notVerified
  | notActive
deriving Repr, DecidableEq

/-- Modelled from the spec: `AbstractCodeVerify.check_is_valid` lives in
`models.py`, which is not part of src/.  Spec section 4.1: look the stored
code up by exact string match inside one kind's namespace; fail with
`InvalidCode("not found")` when no row matches, with `InvalidCode("expired")`
when `now > expires_at`; otherwise return the matched row.  The check is
read-only (it is a pure function here); the `select_related_user` eager
load has no observable effect in this model.  Generic over the row type so
that `ActionCode` and `EmailChangeCode` namespaces share it. -/
def AbstractCodeVerify.check_is_valid {α : Type} (codeOf : α → String)
    (expOf : α → Nat) (codes : List α) (s : String) (now : Nat) :
    Except InvalidCode α :=
  match codes.find? (fun c => codeOf c == s) with
  | none => Except.error InvalidCode.notFound
  | some c =>
      if now > expOf c then Except.error InvalidCode.expired
      else Except.ok c

/-- Modelled from the spec: `verify_user` (models.py, absent from src/)
sets `user.is_verified = true` on the code's owning user. -/
def verify_user (db : DB) (uid : Nat) : DB :=
  { db with users := (db.users.map
      (fun u => if u.id == uid then { u with is_verified := true } else u)) }

/-- Modelled from the spec: `change_user_password` (models.py, absent from
src/) sets the owning user's password credential. -/
def change_user_password (db : DB) (uid : Nat) (pw : String) : DB :=
  { db with users := (db.users.map
      (fun u => if u.id == uid then { u with password := pw } else u)) }

/-- Modelled from the spec: `change_user_email` (models.py, absent from
src/) sets `user.email = new_email` on the code's owning user. -/
def change_user_email (db : DB) (uid : Nat) (e : String) : DB :=
  { db with users := (db.users.map
      (fun u => if u.id == uid then { u with email := e } else u)) }

/-- `ActionCodeVerifyView.get` specialised by `SignupCodeVerify`
(views.py lines 53-70, 205-207): pre-check a presented signup code string;
`check_is_valid` failure becomes an HTTP-400 `InvalidCode` response,
success a plain success message.  No state is touched. -/
def SignupCodeVerify.get (db : DB) (s : String) (now : Nat) :
    DB × Except Failure String :=
  match AbstractCodeVerify.check_is_valid ActionCode.code
      ActionCode.expires_at db.signupCodes s now with
  | Except.error e => (db, Except.error (Failure.invalidCode e))
  | Except.ok _ =>
      (db, Except.ok "The given code parameter is valid, can proceed to verify signup.")

/-- `ActionCodeVerifyView.get` specialised by `PasswordResetCodeVerify`
(views.py lines 53-70, 331-333). -/
def PasswordResetCodeVerify.get (db : DB) (s : String) (now : Nat) :
    DB × Except Failure String :=
  match AbstractCodeVerify.check_is_valid ActionCode.code
      ActionCode.expires_at db.passwordResetCodes s now with
  | Except.error e => (db, Except.error (Failure.invalidCode e))
  | Except.ok _ =>
      (db, Except.ok "The given code parameter is valid, can proceed to password reset.")

/-- `ActionCodeVerifyView.get` specialised by `EmailChangeCodeVerify`
(views.py lines 53-70, 463-465). -/
def EmailChangeCodeVerify.get (db : DB) (s : String) (now : Nat) :
    DB × Except Failure String :=
  match AbstractCodeVerify.check_is_valid EmailChangeCode.code
      EmailChangeCode.expires_at db.emailChangeCodes s now with
  | Except.error e => (db, Except.error (Failure.invalidCode e))
  | Except.ok _ =>
      (db, Except.ok "The given code parameter is valid, can proceed to email change.")

/-- `SignupVerify.post` = `ActionVerifyView.post` (views.py lines 100-118)
with `SignupVerify.handle_action_code` (lines 223-230): validate the code,
set the owning user verified, send the welcome email, then delete every
signup code whose user is the code's user. -/
def SignupVerify.post (db : DB) (s : String) (now : Nat) :
    DB × Except Failure String :=
  match AbstractCodeVerify.check_is_valid ActionCode.code
      ActionCode.expires_at db.signupCodes s now with
  | Except.error e => (db, Except.error (Failure.invalidCode e))
  | Except.ok ac =>
      let db1 := verify_user db ac.userId
      let recipient :=
        match db1.users.find? (fun u => u.id == ac.userId) with
        | some u => u.email
        | none => ""
      let db2 := { db1 with outbox := db1.outbox ++ [("welcome", recipient, "")] }
      let db3 := { db2 with signupCodes :=
        db2.signupCodes.filter (fun c => !(c.userId == ac.userId)) }
      (db3, Except.ok "User email address has been verified.")

/-- `PasswordResetVerify.post` = `ActionVerifyView.post` with
`PasswordResetVerify.handle_request` / `handle_action_code` (views.py
lines 341-363): validate the code; then the body serializer
(`PasswordResetVerifiedSerializer`, modelled from the spec as an abstract
collaborator: `body = none` means the serializer rejected the request,
`some pw` that it accepted with validated password `pw`); on success set
the user's password and delete all of the user's password-reset codes. -/
def PasswordResetVerify.post (db : DB) (s : String) (now : Nat)
    (body : Option String) : DB × Except Failure String :=
  match AbstractCodeVerify.check_is_valid ActionCode.code
      ActionCode.expires_at db.passwordResetCodes s now with
  | Except.error e => (db, Except.error (Failure.invalidCode e))
  | Except.ok ac =>
      match body with
      | none => (db, Except.error Failure.badInput)
      | some pw =>
          let db1 := change_user_password db ac.userId pw
          let db2 := { db1 with passwordResetCodes :=
            db1.passwordResetCodes.filter (fun c => !(c.userId == ac.userId)) }
          (db2, Except.ok "User password has been reset.")

/-- `EmailChangeVerify.post` = `ActionVerifyView.post` with
`EmailChangeVerify.handle_request` (views.py lines 472-488) and
`handle_action_code` (lines 490-492): validate the code; look up the first
user holding the candidate `new_email`; a verified holder aborts with
`EmailTaken`, an unverified holder is deleted; then the owning user's
email is set to `new_email` and all of the user's email-change codes are
deleted. -/
def EmailChangeVerify.post (db : DB) (s : String) (now : Nat) :
    DB × Except Failure String :=
  match AbstractCodeVerify.check_is_valid EmailChangeCode.code
      EmailChangeCode.expires_at db.emailChangeCodes s now with
  | Except.error e => (db, Except.error (Failure.invalidCode e))
  | Except.ok ac =>
      match db.users.find? (fun u => u.email == ac.new_email) with
      | some u =>
          if u.is_verified then (db, Except.error Failure.emailTaken)
          else
            let db1 := { db with users := db.users.filter (fun v => !(v.id == u.id)) }
            let db2 := change_user_email db1 ac.userId ac.new_email
            let db3 := { db2 with emailChangeCodes :=
              db2.emailChangeCodes.filter (fun c => !(c.userId == ac.userId)) }
            (db3, Except.ok "Email address has been changed.")
      | none =>
          let db2 := change_user_email db ac.userId ac.new_email
          let db3 := { db2 with emailChangeCodes :=
            db2.emailChangeCodes.filter (fun c => !(c.userId == ac.userId)) }
          (db3, Except.ok "Email address has been changed.")

/-- Input of a `Signup.post` request.  `signupValid` and `userValid` stand
for `SignupSerializer.is_valid()` and `UserSerializer.is_valid()`
(serializers.py is not part of src/; the spec keeps request-body
validation an out-of-scope black box, so each is an abstract boolean
verdict).  `newUserId` is the id the storage layer allocates when
`get_or_create` has to create a stub; `newCode` the generated code string;
`expires_at` its derived expiry; `ipaddr` the resolved client address. -/
structure SignupInput where
  email : String
  link : String
  signupValid : Bool
  userValid : Bool
  newUserId : Nat
  newCode : String
  expires_at : Nat
  ipaddr : String
deriving Repr, DecidableEq

/-- `Signup.check_verified_users` (views.py lines 130-139):
`get_or_create` the user by email; an existing verified user raises
`EmailTaken`.  Returns the (possibly extended) user list, the resolved
user and the error flag. -/
def Signup.check_verified_users (users : List User) (inp : SignupInput) :
    List User × Option User :=
  match users.find? (fun u => u.email == inp.email) with
  | some u => if u.is_verified then (users, none) else (users, some u)
  | none =>
      let stub : User :=
        { id := inp.newUserId, email := inp.email, is_verified := false,
          is_active := true, password := "" }
      (users ++ [stub], some stub)

/-- `Signup.post` (views.py lines 155-201): validate the signup
serializer; resolve/create the user stub by email (failing with
`EmailTaken` on an existing verified owner); validate the user serializer
against the stub; then save the stub, create the signup code row and
dispatch the verification email.  The `user_serializer.save()` profile
update touches no field this model tracks (email is unchanged, the
lifecycle flags and password are not profile fields). -/
def Signup.post (db : DB) (inp : SignupInput) : DB × Except Failure User :=
  if !inp.signupValid then (db, Except.error Failure.badInput)
  else
    match Signup.check_verified_users db.users inp with
    | (_, none) => (db, Except.error Failure.emailTaken)
    | (users1, some u) =>
        let db1 := { db with users := users1 }
        if !inp.userValid then (db1, Except.error Failure.badInput)
        else
          let sc : ActionCode :=
            { code := inp.newCode, userId := u.id, expires_at := inp.expires_at,
              ipaddr := inp.ipaddr, link := inp.link }
          let db2 := { db1 with
            signupCodes := db1.signupCodes ++ [sc],
            outbox := db1.outbox ++ [("signup", u.email, inp.newCode)] }
          (db2, Except.ok u)

/-- Input of a `PasswordReset.post` request; `valid` is the
`PasswordResetSerializer` verdict (out-of-scope collaborator). -/
structure PasswordResetInput where
  email : String
  link : String
  valid : Bool
  newCode : String
  expires_at : Nat
  ipaddr : String
deriving Repr, DecidableEq

/-- `PasswordReset.post` (views.py lines 292-327): validate the
serializer, look the user up by email; only a user that exists, is
verified and is active gets a password-reset code and the dispatch email;
every other case answers the same generic `NotAllowed` failure. -/
def PasswordReset.post (db : DB) (inp : PasswordResetInput) :
    DB × Except Failure String :=
  if !inp.valid then (db, Except.error Failure.badInput)
  else
    match db.users.find? (fun u => u.email == inp.email) with
    | some u =>
        if u.is_verified && u.is_active then
          let rc : ActionCode :=
            { code := inp.newCode, userId := u.id, expires_at := inp.expires_at,
              ipaddr := inp.ipaddr, link := inp.link }
          let db1 := { db with
            passwordResetCodes := db.passwordResetCodes ++ [rc],
            outbox := db.outbox ++ [("password_reset", u.email, inp.newCode)] }
          (db1, Except.ok u.email)
        else (db, Except.error Failure.notAllowed)
    | none => (db, Except.error Failure.notAllowed)

/-- Input of an `EmailChange.post` request by an authenticated user
(`requesterId`); `valid` is the `EmailChangeSerializer` verdict. -/
structure EmailChangeInput where
  requesterId : Nat
  new_email : String
  link : String
  valid : Bool
  newCode : String
  expires_at : Nat
  ipaddr : String
deriving Repr, DecidableEq

/-- `EmailChange.post` (views.py lines 425-459): validate the serializer;
fail with `EmailTaken` when the candidate address is already owned by a
verified user; otherwise create the email-change code (carrying
`new_email`) and dispatch the email to the candidate address. -/
def EmailChange.post (db : DB) (inp : EmailChangeInput) :
    DB × Except Failure String :=
  if !inp.valid then (db, Except.error Failure.badInput)
  else
    match db.users.find? (fun u => u.email == inp.new_email) with
    | some u =>
        if u.is_verified then (db, Except.error Failure.emailTaken)
        else
          let ec : EmailChangeCode :=
            { code := inp.newCode, userId := inp.requesterId,
              expires_at := inp.expires_at, ipaddr := inp.ipaddr,
              link := inp.link, new_email := inp.new_email }
          let db1 := { db with
            emailChangeCodes := db.emailChangeCodes ++ [ec],
            outbox := db.outbox ++ [("email_change", inp.new_email, inp.newCode)] }
          (db1, Except.ok inp.new_email)
    | none =>
        let ec : EmailChangeCode :=
          { code := inp.newCode, userId := inp.requesterId,
            expires_at := inp.expires_at, ipaddr := inp.ipaddr,
            link := inp.link, new_email := inp.new_email }
        let db1 := { db with
          emailChangeCodes := db.emailChangeCodes ++ [ec],
          outbox := db.outbox ++ [("email_change", inp.new_email, inp.newCode)] }
        (db1, Except.ok inp.new_email)

/-- Input of a `PasswordChange.post` request by an authenticated user:
the presented current password, the new password, and the
`PasswordChangeSerializer` verdict. -/
structure PasswordChangeInput where
  requesterId : Nat
  password : String
  new_password : String
  valid : Bool
deriving Repr, DecidableEq

/-- `PasswordChange.post` (views.py lines 544-569): validate the
serializer; `check_password` against the presented current password,
failing with `PasswordMismatch`; otherwise `set_password` to the new
value and save.  Token rows are never touched.  An authenticated
requester always resolves to a stored user; an absent row is mapped to
the permission layer's rejection (out of scope). -/
def PasswordChange.post (db : DB) (inp : PasswordChangeInput) :
    DB × Except Failure String :=
  if !inp.valid then (db, Except.error Failure.badInput)
  else
    match db.users.find? (fun u => u.id == inp.requesterId) with
    | none => (db, Except.error Failure.badInput)
    | some u =>
        if !(u.password == inp.password) then
          (db, Except.error Failure.passwordMismatch)
        else
          (change_user_password db inp.requesterId inp.new_password,
           Except.ok "Password has been changed.")

/-- Input of a `Login.post` request; `newTokenKey` is the key the token
store would mint when no token exists yet. -/
structure LoginInput where
  email : String
  password : String
  valid : Bool
  newTokenKey : String
deriving Repr, DecidableEq

/-- `Login.post` (views.py lines 594-626): authenticate by email and
password (credential collaborator modelled as equality on the stored
credential), then reject unverified and inactive accounts, then
get-or-create the single bearer token. -/
def Login.post (db : DB) (inp : LoginInput) : DB × Except Failure String :=
  if !inp.valid then (db, Except.error Failure.badInput)
  else
    match db.users.find?
        (fun u => u.email == inp.email && u.password == inp.password) with
    | none => (db, Except.error Failure.invalidCredentials)
    | some u =>
        if !u.is_verified then (db, Except.error Failure.notVerified)
        else if !u.is_active then (db, Except.error Failure.notActive)
        else
          match db.tokens.find? (fun t => t.1 == u.id) with
          | some t => (db, Except.ok t.2)
          | none =>
              ({ db with tokens := db.tokens ++ [(u.id, inp.newTokenKey)] },
               Except.ok inp.newTokenKey)

/-- `Logout.post` (views.py lines 650-658): delete every token owned by
the authenticated caller. -/
def Logout.post (db : DB) (requesterId : Nat) : DB × Except Failure String :=
  ({ db with tokens := db.tokens.filter (fun t => !(t.1 == requesterId)) },
   Except.ok "User logged out.")

/-- Filtering for a predicate after having kept only its complement
yields nothing: the shape of every sibling-deletion cleanup. -/
theorem filter_after_not_filter {α : Type} (p : α → Bool) (l : List α) :
    (l.filter (fun a => !(p a))).filter p = [] := by
  induction l with
  | nil => rfl
  | cons a t ih =>
      by_cases h : p a = true
      · simp [List.filter_cons, h, ih]
      · simp [List.filter_cons, h, ih]

/-- After deleting every code of the consumed code's user, no code with
the consumed string remains, provided code strings are unique within the
kind (the spec's uniqueness invariant). -/
theorem find?_none_after_sibling_delete {α : Type} (codeOf : α → String)
    (uidOf : α → Nat) (l : List α) (s : String) (ac : α)
    (hnd : (l.map codeOf).Nodup)
    (hfind : l.find? (fun c => codeOf c == s) = some ac) :
    (l.filter (fun c => !(uidOf c == uidOf ac))).find?
      (fun c => codeOf c == s) = none := by
  have hac_mem : ac ∈ l := List.mem_of_find?_eq_some hfind
  have hac_code : codeOf ac = s := by
    have h := List.find?_some (p := fun c => codeOf c == s) hfind
    simpa using h
  rw [List.find?_eq_none]
  intro c hc hcode
  have hc' := List.mem_filter.mp hc
  have hceq : c = ac := by
    refine List.inj_on_of_nodup_map hnd hc'.1 hac_mem ?_
    have h1 : codeOf c = s := by simpa using hcode
    rw [h1, hac_code]
  rw [hceq] at hc'
  simp at hc'

/-- `check_is_valid` on the post-cleanup store answers "not found" for the
consumed string, at any later time. -/
theorem check_notFound_after_sibling_delete {α : Type} (codeOf : α → String)
    (expOf : α → Nat) (uidOf : α → Nat) (l : List α) (s : String) (ac : α)
    (now2 : Nat) (hnd : (l.map codeOf).Nodup)
    (hfind : l.find? (fun c => codeOf c == s) = some ac) :
    AbstractCodeVerify.check_is_valid codeOf expOf
      (l.filter (fun c => !(uidOf c == uidOf ac))) s now2 =
      Except.error InvalidCode.notFound := by
  unfold AbstractCodeVerify.check_is_valid
  rw [find?_none_after_sibling_delete codeOf uidOf l s ac hnd hfind]

/-- C1: for every user with N outstanding action codes of one kind
(signup, password-reset, or email-change), a successful consumption of
any one of those codes deletes all N codes of that kind for that user,
including the consumed one: after the consuming request, the store holds
no code of that kind owned by the consumed code's user. -/
theorem C1_sibling_invalidation (db : DB) (s : String) (now : Nat)
    (pw : String) :
    (∀ ac, AbstractCodeVerify.check_is_valid ActionCode.code
        ActionCode.expires_at db.signupCodes s now = Except.ok ac →
      ((SignupVerify.post db s now).1.signupCodes.filter
        (fun c => c.userId == ac.userId)) = [])
  ∧ (∀ ac, AbstractCodeVerify.check_is_valid ActionCode.code
        ActionCode.expires_at db.passwordResetCodes s now = Except.ok ac →
      ((PasswordResetVerify.post db s now (some pw)).1.passwordResetCodes.filter
        (fun c => c.userId == ac.userId)) = [])
  ∧ (∀ ac msg, AbstractCodeVerify.check_is_valid EmailChangeCode.code
        EmailChangeCode.expires_at db.emailChangeCodes s now = Except.ok ac →
      (EmailChangeVerify.post db s now).2 = Except.ok msg →
      ((EmailChangeVerify.post db s now).1.emailChangeCodes.filter
        (fun c => c.userId == ac.userId)) = []) := by
  refine ⟨?_, ?_, ?_⟩
  · intro ac hac
    simp only [SignupVerify.post, hac, verify_user]
    exact filter_after_not_filter _ _
  · intro ac hac
    simp only [PasswordResetVerify.post, hac, change_user_password]
    exact filter_after_not_filter _ _
  · intro ac msg hac hsucc
    simp only [EmailChangeVerify.post, hac] at hsucc ⊢
    cases hfind : db.users.find? (fun u => u.email == ac.new_email) with
    | none =>
        simp only [hfind, change_user_email]
        exact filter_after_not_filter _ _
    | some u =>
        simp only [hfind] at hsucc ⊢
        by_cases hv : u.is_verified = true
        · simp [hv] at hsucc
        · simp only [Bool.not_eq_true] at hv
          simp only [hv, Bool.false_eq_true, if_false, change_user_email]
          exact filter_after_not_filter _ _

def acW1 : ActionCode :=
  { code := "c", userId := 1, expires_at := 10, ipaddr := "ip", link := "" }

def acW2 : ActionCode :=
  { code := "d", userId := 1, expires_at := 10, ipaddr := "ip", link := "" }

def ecW1 : EmailChangeCode :=
  { code := "c", userId := 1, expires_at := 10, ipaddr := "ip", link := "",
    new_email := "n@x" }

def ecW2 : EmailChangeCode :=
  { code := "d", userId := 1, expires_at := 10, ipaddr := "ip", link := "",
    new_email := "n@x" }

def userW1 : User :=
  { id := 1, email := "a@x", is_verified := true, is_active := true,
    password := "p" }

def dbW1 : DB :=
  { users := [userW1], signupCodes := [acW1, acW2],
    passwordResetCodes := [acW1, acW2], emailChangeCodes := [ecW1, ecW2],
    tokens := [], outbox := [] }

/-- C1 witness: in a store where user 1 holds two codes of each kind,
consuming code "c" leaves no code of that kind for user 1. -/
theorem C1_sibling_invalidation_witness :
    ((SignupVerify.post dbW1 "c" 0).1.signupCodes.filter
      (fun c => c.userId == acW1.userId)) = []
  ∧ ((PasswordResetVerify.post dbW1 "c" 0 (some "np")).1.passwordResetCodes.filter
      (fun c => c.userId == acW1.userId)) = []
  ∧ ((EmailChangeVerify.post dbW1 "c" 0).1.emailChangeCodes.filter
      (fun c => c.userId == ecW1.userId)) = [] := by
  have h := C1_sibling_invalidation dbW1 "c" 0 "np"
  exact ⟨h.1 acW1 rfl, h.2.1 acW1 rfl,
    h.2.2 ecW1 "Email address has been changed." rfl rfl⟩

/-- Inversion of a successful `check_is_valid`: the returned row is the
one `find?` located. -/
theorem check_is_valid_ok_find {α : Type} (codeOf : α → String)
    (expOf : α → Nat) (l : List α) (s : String) (now : Nat) (ac : α)
    (h : AbstractCodeVerify.check_is_valid codeOf expOf l s now =
      Except.ok ac) :
    l.find? (fun c => codeOf c == s) = some ac := by
  unfold AbstractCodeVerify.check_is_valid at h
  cases hf : l.find? (fun c => codeOf c == s) with
  | none => rw [hf] at h; exact absurd h (by simp)
  | some c =>
      rw [hf] at h
      by_cases hex : now > expOf c
      · simp [hex] at h
      · have hce : c = ac := by simpa [hex] using h
        rw [hce]

/-- C2: after one successful sequential consumption, a second consumption
attempt presenting the same code string fails with `InvalidCode` (the
HTTP-400 structured failure) and mutates nothing: the second request maps
the post-consumption state to itself.  Requires the spec's invariant that
code strings are unique within a kind. -/
theorem C2_no_replay (db : DB) (s : String) (now now2 : Nat) (pw : String)
    (body2 : Option String) :
    ((db.signupCodes.map ActionCode.code).Nodup →
      ∀ msg, (SignupVerify.post db s now).2 = Except.ok msg →
      SignupVerify.post (SignupVerify.post db s now).1 s now2 =
        ((SignupVerify.post db s now).1,
         Except.error (Failure.invalidCode InvalidCode.notFound)))
  ∧ ((db.passwordResetCodes.map ActionCode.code).Nodup →
      ∀ msg, (PasswordResetVerify.post db s now (some pw)).2 = Except.ok msg →
      PasswordResetVerify.post (PasswordResetVerify.post db s now (some pw)).1
          s now2 body2 =
        ((PasswordResetVerify.post db s now (some pw)).1,
         Except.error (Failure.invalidCode InvalidCode.notFound)))
  ∧ ((db.emailChangeCodes.map EmailChangeCode.code).Nodup →
      ∀ msg, (EmailChangeVerify.post db s now).2 = Except.ok msg →
      EmailChangeVerify.post (EmailChangeVerify.post db s now).1 s now2 =
        ((EmailChangeVerify.post db s now).1,
         Except.error (Failure.invalidCode InvalidCode.notFound))) := by
  refine ⟨?_, ?_, ?_⟩
  · intro hnd msg hsucc
    cases hac : AbstractCodeVerify.check_is_valid ActionCode.code
        ActionCode.expires_at db.signupCodes s now with
    | error e => simp [SignupVerify.post, hac] at hsucc
    | ok ac =>
        have hfind := check_is_valid_ok_find _ _ _ _ _ _ hac
        simp only [SignupVerify.post, hac, verify_user]
        rw [check_notFound_after_sibling_delete ActionCode.code
          ActionCode.expires_at ActionCode.userId db.signupCodes s ac now2
          hnd hfind]
  · intro hnd msg hsucc
    cases hac : AbstractCodeVerify.check_is_valid ActionCode.code
        ActionCode.expires_at db.passwordResetCodes s now with
    | error e => simp [PasswordResetVerify.post, hac] at hsucc
    | ok ac =>
        have hfind := check_is_valid_ok_find _ _ _ _ _ _ hac
        simp only [PasswordResetVerify.post, hac, change_user_password]
        rw [check_notFound_after_sibling_delete ActionCode.code
          ActionCode.expires_at ActionCode.userId db.passwordResetCodes s ac
          now2 hnd hfind]
  · intro hnd msg hsucc
    cases hac : AbstractCodeVerify.check_is_valid EmailChangeCode.code
        EmailChangeCode.expires_at db.emailChangeCodes s now with
    | error e => simp [EmailChangeVerify.post, hac] at hsucc
    | ok ac =>
        have hfind := check_is_valid_ok_find _ _ _ _ _ _ hac
        simp only [EmailChangeVerify.post, hac] at hsucc ⊢
        cases hholder : db.users.find? (fun u => u.email == ac.new_email) with
        | none =>
            simp only [hholder, change_user_email]
            rw [check_notFound_after_sibling_delete EmailChangeCode.code
              EmailChangeCode.expires_at EmailChangeCode.userId
              db.emailChangeCodes s ac now2 hnd hfind]
        | some u =>
            simp only [hholder] at hsucc ⊢
            by_cases hv : u.is_verified = true
            · simp [hv] at hsucc
            · simp only [Bool.not_eq_true] at hv
              simp only [hv, Bool.false_eq_true, if_false, change_user_email]
              rw [check_notFound_after_sibling_delete EmailChangeCode.code
                EmailChangeCode.expires_at EmailChangeCode.userId
                db.emailChangeCodes s ac now2 hnd hfind]

/-- C2 witness: consuming code "c" of `dbW1` once and replaying it: the
replay fails with not-found `InvalidCode` and leaves state untouched, for
all three kinds. -/
theorem C2_no_replay_witness :
    SignupVerify.post (SignupVerify.post dbW1 "c" 0).1 "c" 0 =
      ((SignupVerify.post dbW1 "c" 0).1,
       Except.error (Failure.invalidCode InvalidCode.notFound))
  ∧ PasswordResetVerify.post
        (PasswordResetVerify.post dbW1 "c" 0 (some "np")).1 "c" 0 (some "np") =
      ((PasswordResetVerify.post dbW1 "c" 0 (some "np")).1,
       Except.error (Failure.invalidCode InvalidCode.notFound))
  ∧ EmailChangeVerify.post (EmailChangeVerify.post dbW1 "c" 0).1 "c" 0 =
      ((EmailChangeVerify.post dbW1 "c" 0).1,
       Except.error (Failure.invalidCode InvalidCode.notFound)) := by
  have h := C2_no_replay dbW1 "c" 0 0 "np" (some "np")
  exact ⟨h.1 (by decide) "User email address has been verified." rfl,
    h.2.1 (by decide) "User password has been reset." rfl,
    h.2.2 (by decide) "Email address has been changed." rfl⟩

/-- `check_is_valid` rejects a matched row whose expiry has passed with
the distinct "expired" cause. -/
theorem check_is_valid_expired {α : Type} (codeOf : α → String)
    (expOf : α → Nat) (l : List α) (s : String) (now : Nat) (c : α)
    (hf : l.find? (fun a => codeOf a == s) = some c)
    (hex : now > expOf c) :
    AbstractCodeVerify.check_is_valid codeOf expOf l s now =
      Except.error InvalidCode.expired := by
  unfold AbstractCodeVerify.check_is_valid
  rw [hf]
  simp [hex]

/-- C3: a code whose expiry has passed (now > expires_at) is rejected by
both the pre-check and the consumption entry point with the `InvalidCode`
failure class, state untouched, even though the row exists; internally
the "expired" cause is a value distinct from "not found". -/
theorem C3_expired_rejected (db : DB) (s : String) (now : Nat)
    (body : Option String) :
    (∀ c, db.signupCodes.find? (fun a => a.code == s) = some c →
      now > c.expires_at →
      SignupCodeVerify.get db s now =
        (db, Except.error (Failure.invalidCode InvalidCode.expired))
      ∧ SignupVerify.post db s now =
        (db, Except.error (Failure.invalidCode InvalidCode.expired)))
  ∧ (∀ c, db.passwordResetCodes.find? (fun a => a.code == s) = some c →
      now > c.expires_at →
      PasswordResetCodeVerify.get db s now =
        (db, Except.error (Failure.invalidCode InvalidCode.expired))
      ∧ PasswordResetVerify.post db s now body =
        (db, Except.error (Failure.invalidCode InvalidCode.expired)))
  ∧ (∀ c, db.emailChangeCodes.find? (fun a => a.code == s) = some c →
      now > c.expires_at →
      EmailChangeCodeVerify.get db s now =
        (db, Except.error (Failure.invalidCode InvalidCode.expired))
      ∧ EmailChangeVerify.post db s now =
        (db, Except.error (Failure.invalidCode InvalidCode.expired)))
  ∧ InvalidCode.expired ≠ InvalidCode.notFound := by
  refine ⟨?_, ?_, ?_, by simp⟩
  · intro c hf hex
    have hc := check_is_valid_expired ActionCode.code ActionCode.expires_at
      db.signupCodes s now c hf hex
    exact ⟨by simp [SignupCodeVerify.get, hc], by simp [SignupVerify.post, hc]⟩
  · intro c hf hex
    have hc := check_is_valid_expired ActionCode.code ActionCode.expires_at
      db.passwordResetCodes s now c hf hex
    exact ⟨by simp [PasswordResetCodeVerify.get, hc],
      by simp [PasswordResetVerify.post, hc]⟩
  · intro c hf hex
    have hc := check_is_valid_expired EmailChangeCode.code
      EmailChangeCode.expires_at db.emailChangeCodes s now c hf hex
    exact ⟨by simp [EmailChangeCodeVerify.get, hc],
      by simp [EmailChangeVerify.post, hc]⟩

/-- C3 witness: at time 11 the codes of `dbW1` (expiring at 10) are
rejected as expired by every entry point. -/
theorem C3_expired_rejected_witness :
    (SignupCodeVerify.get dbW1 "c" 11 =
      (dbW1, Except.error (Failure.invalidCode InvalidCode.expired))
    ∧ SignupVerify.post dbW1 "c" 11 =
      (dbW1, Except.error (Failure.invalidCode InvalidCode.expired)))
  ∧ (PasswordResetCodeVerify.get dbW1 "c" 11 =
      (dbW1, Except.error (Failure.invalidCode InvalidCode.expired))
    ∧ PasswordResetVerify.post dbW1 "c" 11 (some "np") =
      (dbW1, Except.error (Failure.invalidCode InvalidCode.expired)))
  ∧ (EmailChangeCodeVerify.get dbW1 "c" 11 =
      (dbW1, Except.error (Failure.invalidCode InvalidCode.expired))
    ∧ EmailChangeVerify.post dbW1 "c" 11 =
      (dbW1, Except.error (Failure.invalidCode InvalidCode.expired))) := by
  have h := C3_expired_rejected dbW1 "c" 11 (some "np")
  exact ⟨h.1 acW1 rfl (by decide), h.2.1 acW1 rfl (by decide),
    h.2.2.1 ecW1 rfl (by decide)⟩

/-- C4: the pre-check entry point is read-only: for each kind it maps any
state to itself, repeated calls return the very same result, and on a
valid unexpired code the pre-check succeeds. -/
theorem C4_precheck_readonly (db : DB) (s : String) (now : Nat) :
    (SignupCodeVerify.get db s now).1 = db
  ∧ (PasswordResetCodeVerify.get db s now).1 = db
  ∧ (EmailChangeCodeVerify.get db s now).1 = db
  ∧ SignupCodeVerify.get (SignupCodeVerify.get db s now).1 s now =
      SignupCodeVerify.get db s now
  ∧ PasswordResetCodeVerify.get (PasswordResetCodeVerify.get db s now).1
      s now = PasswordResetCodeVerify.get db s now
  ∧ EmailChangeCodeVerify.get (EmailChangeCodeVerify.get db s now).1 s now =
      EmailChangeCodeVerify.get db s now
  ∧ (∀ ac, AbstractCodeVerify.check_is_valid ActionCode.code
      ActionCode.expires_at db.signupCodes s now = Except.ok ac →
      (SignupCodeVerify.get db s now).2 =
        Except.ok "The given code parameter is valid, can proceed to verify signup.")
  ∧ (∀ ac, AbstractCodeVerify.check_is_valid ActionCode.code
      ActionCode.expires_at db.passwordResetCodes s now = Except.ok ac →
      (PasswordResetCodeVerify.get db s now).2 =
        Except.ok "The given code parameter is valid, can proceed to password reset.")
  ∧ (∀ ac, AbstractCodeVerify.check_is_valid EmailChangeCode.code
      EmailChangeCode.expires_at db.emailChangeCodes s now = Except.ok ac →
      (EmailChangeCodeVerify.get db s now).2 =
        Except.ok "The given code parameter is valid, can proceed to email change.") := by
  have h1 : (SignupCodeVerify.get db s now).1 = db := by
    unfold SignupCodeVerify.get
    cases AbstractCodeVerify.check_is_valid ActionCode.code
      ActionCode.expires_at db.signupCodes s now <;> rfl
  have h2 : (PasswordResetCodeVerify.get db s now).1 = db := by
    unfold PasswordResetCodeVerify.get
    cases AbstractCodeVerify.check_is_valid ActionCode.code
      ActionCode.expires_at db.passwordResetCodes s now <;> rfl
  have h3 : (EmailChangeCodeVerify.get db s now).1 = db := by
    unfold EmailChangeCodeVerify.get
    cases AbstractCodeVerify.check_is_valid EmailChangeCode.code
      EmailChangeCode.expires_at db.emailChangeCodes s now <;> rfl
  refine ⟨h1, h2, h3, by rw [h1], by rw [h2], by rw [h3], ?_, ?_, ?_⟩
  · intro ac hac
    simp [SignupCodeVerify.get, hac]
  · intro ac hac
    simp [PasswordResetCodeVerify.get, hac]
  · intro ac hac
    simp [EmailChangeCodeVerify.get, hac]

/-- C4 witness: on `dbW1` at time 0 the code "c" is valid; the pre-checks
leave the state untouched, repeat identically and succeed. -/
theorem C4_precheck_readonly_witness :
    (SignupCodeVerify.get dbW1 "c" 0).1 = dbW1
  ∧ SignupCodeVerify.get (SignupCodeVerify.get dbW1 "c" 0).1 "c" 0 =
      SignupCodeVerify.get dbW1 "c" 0
  ∧ (SignupCodeVerify.get dbW1 "c" 0).2 =
      Except.ok "The given code parameter is valid, can proceed to verify signup."
  ∧ (PasswordResetCodeVerify.get dbW1 "c" 0).2 =
      Except.ok "The given code parameter is valid, can proceed to password reset."
  ∧ (EmailChangeCodeVerify.get dbW1 "c" 0).2 =
      Except.ok "The given code parameter is valid, can proceed to email change." := by
  have h := C4_precheck_readonly dbW1 "c" 0
  exact ⟨h.1, h.2.2.2.1, h.2.2.2.2.2.2.1 acW1 rfl,
    h.2.2.2.2.2.2.2.1 acW1 rfl, h.2.2.2.2.2.2.2.2 ecW1 rfl⟩

/-- C5: email-change consumption re-checks the candidate address.  When a
verified user (other than the requester) holds `new_email`, the request
fails with `EmailTaken` and the state — the requester's email included —
is untouched.  When an unverified user distinct from the requester holds
it, that account is deleted, every user row keeping the requester's id
now carries `new_email` (and the requester row survives), and the
request reports success: both mutations happen together. -/
theorem C5_email_change_recheck (db : DB) (s : String) (now : Nat)
    (ac : EmailChangeCode) (u : User)
    (hac : AbstractCodeVerify.check_is_valid EmailChangeCode.code
      EmailChangeCode.expires_at db.emailChangeCodes s now = Except.ok ac)
    (hholder : db.users.find? (fun v => v.email == ac.new_email) = some u) :
    (u.is_verified = true →
      EmailChangeVerify.post db s now = (db, Except.error Failure.emailTaken))
  ∧ (u.is_verified = false → u.id ≠ ac.userId →
      ((EmailChangeVerify.post db s now).1.users.all
        (fun v => !(v.id == u.id))) = true
      ∧ ((EmailChangeVerify.post db s now).1.users.all
        (fun v => !(v.id == ac.userId) || (v.email == ac.new_email))) = true
      ∧ (∀ r, r ∈ db.users → r.id = ac.userId →
          ((EmailChangeVerify.post db s now).1.users.any
            (fun v => v.id == ac.userId && v.email == ac.new_email)) = true)
      ∧ (EmailChangeVerify.post db s now).2 =
          Except.ok "Email address has been changed.") := by
  constructor
  · intro hv
    simp [EmailChangeVerify.post, hac, hholder, hv]
  · intro hv hne
    simp only [EmailChangeVerify.post, hac, hholder, hv, Bool.false_eq_true,
      if_false, change_user_email]
    refine ⟨?_, ?_, ?_, trivial⟩
    · rw [List.all_eq_true]
      intro v hv'
      obtain ⟨w, hw, rfl⟩ := List.mem_map.mp hv'
      have hwf := List.mem_filter.mp hw
      by_cases hwid : (w.id == ac.userId) = true
      · simp only [hwid, if_true]
        simpa using hwf.2
      · simp only [hwid, Bool.false_eq_true, if_false]
        exact hwf.2
    · rw [List.all_eq_true]
      intro v hv'
      obtain ⟨w, hw, rfl⟩ := List.mem_map.mp hv'
      by_cases hwid : (w.id == ac.userId) = true
      · simp [hwid]
      · simp [hwid]
    · intro r hr hrid
      rw [List.any_eq_true]
      have hrkeep : (!(r.id == u.id)) = true := by
        have hne' : r.id ≠ u.id := fun h => hne (h.symm.trans hrid)
        simp [hne']
      have hrmem : r ∈ db.users.filter (fun v => !(v.id == u.id)) :=
        List.mem_filter.mpr ⟨hr, hrkeep⟩
      refine ⟨_, List.mem_map_of_mem _ hrmem, ?_⟩
      simp [hrid]

def userW2a : User :=
  { id := 1, email := "a@x", is_verified := true, is_active := true,
    password := "p" }

def userW2b : User :=
  { id := 2, email := "b@x", is_verified := false, is_active := true,
    password := "q" }

def userW2c : User :=
  { id := 3, email := "v@x", is_verified := true, is_active := true,
    password := "r" }

def ecWb : EmailChangeCode :=
  { code := "c", userId := 1, expires_at := 10, ipaddr := "ip", link := "",
    new_email := "b@x" }

def ecWc : EmailChangeCode :=
  { code := "d", userId := 1, expires_at := 10, ipaddr := "ip", link := "",
    new_email := "v@x" }

def dbW2 : DB :=
  { users := [userW2a, userW2b, userW2c], signupCodes := [],
    passwordResetCodes := [], emailChangeCodes := [ecWb, ecWc],
    tokens := [], outbox := [] }

/-- C5 witness: in `dbW2`, consuming code "d" (candidate address held by
the verified user 3) fails with `EmailTaken` and changes nothing;
consuming code "c" (candidate address held by the unverified user 2)
deletes user 2, sets the requester's email to the candidate address, and
succeeds. -/
theorem C5_email_change_recheck_witness :
    EmailChangeVerify.post dbW2 "d" 0 = (dbW2, Except.error Failure.emailTaken)
  ∧ ((EmailChangeVerify.post dbW2 "c" 0).1.users.all
      (fun v => !(v.id == userW2b.id))) = true
  ∧ ((EmailChangeVerify.post dbW2 "c" 0).1.users.all
      (fun v => !(v.id == ecWb.userId) || (v.email == ecWb.new_email))) = true
  ∧ ((EmailChangeVerify.post dbW2 "c" 0).1.users.any
      (fun v => v.id == ecWb.userId && v.email == ecWb.new_email)) = true
  ∧ (EmailChangeVerify.post dbW2 "c" 0).2 =
      Except.ok "Email address has been changed." := by
  have h1 := C5_email_change_recheck dbW2 "d" 0 ecWc userW2c rfl rfl
  have h2 := C5_email_change_recheck dbW2 "c" 0 ecWb userW2b rfl rfl
  have h2' := h2.2 rfl (by decide)
  exact ⟨h1.1 rfl, h2'.1, h2'.2.1, h2'.2.2.1 userW2a (by decide) rfl,
    h2'.2.2.2⟩

/-- C6: password-reset issuance creates a code and dispatches the email
exactly when a user with the given email exists, is verified and is
active; in every other case (no such user, unverified, or inactive) it
answers the one generic `NotAllowed` failure with the state untouched, so
the response does not reveal whether the address exists. -/
theorem C6_password_reset_anti_enumeration (db : DB)
    (inp : PasswordResetInput) (hvalid : inp.valid = true) :
    (∀ u, db.users.find? (fun v => v.email == inp.email) = some u →
      u.is_verified = true → u.is_active = true →
      PasswordReset.post db inp =
        ({ db with
            passwordResetCodes := db.passwordResetCodes ++
              [{ code := inp.newCode, userId := u.id,
                 expires_at := inp.expires_at, ipaddr := inp.ipaddr,
                 link := inp.link }],
            outbox := db.outbox ++
              [("password_reset", u.email, inp.newCode)] },
         Except.ok u.email))
  ∧ (∀ u, db.users.find? (fun v => v.email == inp.email) = some u →
      (u.is_verified = false ∨ u.is_active = false) →
      PasswordReset.post db inp = (db, Except.error Failure.notAllowed))
  ∧ (db.users.find? (fun v => v.email == inp.email) = none →
      PasswordReset.post db inp = (db, Except.error Failure.notAllowed)) := by
  refine ⟨?_, ?_, ?_⟩
  · intro u hfind hv ha
    simp [PasswordReset.post, hvalid, hfind, hv, ha]
  · intro u hfind hcase
    rcases hcase with hv | ha
    · simp [PasswordReset.post, hvalid, hfind, hv]
    · simp [PasswordReset.post, hvalid, hfind, ha]
  · intro hfind
    simp [PasswordReset.post, hvalid, hfind]

def priW (e : String) : PasswordResetInput :=
  { email := e, link := "", valid := true, newCode := "pr1",
    expires_at := 9, ipaddr := "ip" }

/-- C6 witness: on `dbW2`, requesting a reset for the verified active
address succeeds and stores the code; for an unverified address and for a
non-existent address the answer is the identical generic failure. -/
theorem C6_password_reset_anti_enumeration_witness :
    PasswordReset.post dbW2 (priW "a@x") =
      ({ dbW2 with
          passwordResetCodes := dbW2.passwordResetCodes ++
            [{ code := (priW "a@x").newCode, userId := userW2a.id,
               expires_at := (priW "a@x").expires_at,
               ipaddr := (priW "a@x").ipaddr, link := (priW "a@x").link }],
          outbox := dbW2.outbox ++
            [("password_reset", userW2a.email, (priW "a@x").newCode)] },
       Except.ok userW2a.email)
  ∧ PasswordReset.post dbW2 (priW "b@x") =
      (dbW2, Except.error Failure.notAllowed)
  ∧ PasswordReset.post dbW2 (priW "z@x") =
      (dbW2, Except.error Failure.notAllowed) := by
  exact ⟨(C6_password_reset_anti_enumeration dbW2 (priW "a@x") rfl).1
      userW2a rfl rfl rfl,
    (C6_password_reset_anti_enumeration dbW2 (priW "b@x") rfl).2.1
      userW2b rfl (Or.inl rfl),
    (C6_password_reset_anti_enumeration dbW2 (priW "z@x") rfl).2.2 rfl⟩

/-- C7: signup issuance fails with `EmailTaken` and creates nothing when
a verified user already owns the requested email; when the email is
unowned, a fresh unverified stub is created, and in both remaining cases
a signup code is stored and the verification email dispatched. -/
theorem C7_signup_issuance (db : DB) (inp : SignupInput)
    (hs : inp.signupValid = true) (hu : inp.userValid = true) :
    (∀ u, db.users.find? (fun v => v.email == inp.email) = some u →
      u.is_verified = true →
      Signup.post db inp = (db, Except.error Failure.emailTaken))
  ∧ (∀ u, db.users.find? (fun v => v.email == inp.email) = some u →
      u.is_verified = false →
      Signup.post db inp =
        ({ db with
            signupCodes := db.signupCodes ++
              [{ code := inp.newCode, userId := u.id,
                 expires_at := inp.expires_at, ipaddr := inp.ipaddr,
                 link := inp.link }],
            outbox := db.outbox ++ [("signup", u.email, inp.newCode)] },
         Except.ok u))
  ∧ (db.users.find? (fun v => v.email == inp.email) = none →
      Signup.post db inp =
        ({ db with
            users := db.users ++
              [{ id := inp.newUserId, email := inp.email,
                 is_verified := false, is_active := true, password := "" }],
            signupCodes := db.signupCodes ++
              [{ code := inp.newCode, userId := inp.newUserId,
                 expires_at := inp.expires_at, ipaddr := inp.ipaddr,
                 link := inp.link }],
            outbox := db.outbox ++ [("signup", inp.email, inp.newCode)] },
         Except.ok { id := inp.newUserId, email := inp.email,
                     is_verified := false, is_active := true,
                     password := "" })) := by
  refine ⟨?_, ?_, ?_⟩
  · intro u hfind hv
    simp [Signup.post, Signup.check_verified_users, hs, hfind, hv]
  · intro u hfind hv
    simp [Signup.post, Signup.check_verified_users, hs, hu, hfind, hv]
  · intro hfind
    simp [Signup.post, Signup.check_verified_users, hs, hu, hfind]

def siW (e : String) : SignupInput :=
  { email := e, link := "", signupValid := true, userValid := true,
    newUserId := 9, newCode := "sc1", expires_at := 9, ipaddr := "ip" }

/-- C7 witness: on `dbW2`, signing up with the verified user's address
fails with `EmailTaken` and changes nothing; with the unverified user's
address it stores a code for that stub; with a fresh address it creates
the stub and stores a code. -/
theorem C7_signup_issuance_witness :
    Signup.post dbW2 (siW "a@x") = (dbW2, Except.error Failure.emailTaken)
  ∧ Signup.post dbW2 (siW "b@x") =
      ({ dbW2 with
          signupCodes := dbW2.signupCodes ++
            [{ code := (siW "b@x").newCode, userId := userW2b.id,
               expires_at := (siW "b@x").expires_at,
               ipaddr := (siW "b@x").ipaddr, link := (siW "b@x").link }],
          outbox := dbW2.outbox ++
            [("signup", userW2b.email, (siW "b@x").newCode)] },
       Except.ok userW2b)
  ∧ Signup.post dbW2 (siW "z@x") =
      ({ dbW2 with
          users := dbW2.users ++
            [{ id := (siW "z@x").newUserId, email := (siW "z@x").email,
               is_verified := false, is_active := true, password := "" }],
          signupCodes := dbW2.signupCodes ++
            [{ code := (siW "z@x").newCode, userId := (siW "z@x").newUserId,
               expires_at := (siW "z@x").expires_at,
               ipaddr := (siW "z@x").ipaddr, link := (siW "z@x").link }],
          outbox := dbW2.outbox ++
            [("signup", (siW "z@x").email, (siW "z@x").newCode)] },
       Except.ok { id := (siW "z@x").newUserId, email := (siW "z@x").email,
                   is_verified := false, is_active := true,
                   password := "" }) := by
  exact ⟨(C7_signup_issuance dbW2 (siW "a@x") rfl rfl).1 userW2a rfl rfl,
    (C7_signup_issuance dbW2 (siW "b@x") rfl rfl).2.1 userW2b rfl rfl,
    (C7_signup_issuance dbW2 (siW "z@x") rfl rfl).2.2 rfl⟩

/-- A failing signup request leaves the state unchanged except in one
case: when the user serializer rejects the request after `get_or_create`
already created a fresh stub, the stub stays behind. -/
theorem signupPost_failure_frame (db : DB) (inp : SignupInput)
    (f : Failure) (hf : (Signup.post db inp).2 = Except.error f) :
    (Signup.post db inp).1 = db
  ∨ (f = Failure.badInput ∧ (Signup.post db inp).1 =
      { db with users := db.users ++
        [{ id := inp.newUserId, email := inp.email, is_verified := false,
           is_active := true, password := "" }] }) := by
  by_cases hs : inp.signupValid = true
  · cases hfind : db.users.find? (fun v => v.email == inp.email) with
    | some u =>
        by_cases hv : u.is_verified = true
        · left
          simp [Signup.post, Signup.check_verified_users, hs, hfind, hv]
        · simp only [Bool.not_eq_true] at hv
          by_cases huv : inp.userValid = true
          · exfalso
            simp [Signup.post, Signup.check_verified_users, hs, hfind, hv,
              huv] at hf
          · simp only [Bool.not_eq_true] at huv
            left
            simp [Signup.post, Signup.check_verified_users, hs, hfind, hv,
              huv]
    | none =>
        by_cases huv : inp.userValid = true
        · exfalso
          simp [Signup.post, Signup.check_verified_users, hs, hfind,
            huv] at hf
        · simp only [Bool.not_eq_true] at huv
          right
          have hfe : f = Failure.badInput := by
            have := hf
            simp [Signup.post, Signup.check_verified_users, hs, hfind,
              huv] at this
            exact this.symm
          refine ⟨hfe, ?_⟩
          simp [Signup.post, Signup.check_verified_users, hs, hfind, huv]
  · simp only [Bool.not_eq_true] at hs
    left
    simp [Signup.post, hs]

/-- A failing password-reset issuance mutates nothing. -/
theorem passwordResetPost_failure_frame (db : DB)
    (inp : PasswordResetInput) (f : Failure)
    (hf : (PasswordReset.post db inp).2 = Except.error f) :
    (PasswordReset.post db inp).1 = db := by
  by_cases hv : inp.valid = true
  · cases hfind : db.users.find? (fun u => u.email == inp.email) with
    | none => simp [PasswordReset.post, hv, hfind]
    | some u =>
        by_cases hva : (u.is_verified && u.is_active) = true
        · exfalso
          simp [PasswordReset.post, hv, hfind, hva] at hf
        · simp only [Bool.not_eq_true] at hva
          simp [PasswordReset.post, hv, hfind, hva]
  · simp only [Bool.not_eq_true] at hv
    simp [PasswordReset.post, hv]

/-- A failing email-change issuance mutates nothing. -/
theorem emailChangePost_failure_frame (db : DB) (inp : EmailChangeInput)
    (f : Failure) (hf : (EmailChange.post db inp).2 = Except.error f) :
    (EmailChange.post db inp).1 = db := by
  by_cases hv : inp.valid = true
  · cases hfind : db.users.find? (fun u => u.email == inp.new_email) with
    | none => exfalso; simp [EmailChange.post, hv, hfind] at hf
    | some u =>
        by_cases hvf : u.is_verified = true
        · simp [EmailChange.post, hv, hfind, hvf]
        · exfalso
          simp only [Bool.not_eq_true] at hvf
          simp [EmailChange.post, hv, hfind, hvf] at hf
  · simp only [Bool.not_eq_true] at hv
    simp [EmailChange.post, hv]

/-- A failing signup-verify consumption mutates nothing. -/
theorem signupVerifyPost_failure_frame (db : DB) (s : String) (now : Nat)
    (f : Failure) (hf : (SignupVerify.post db s now).2 = Except.error f) :
    (SignupVerify.post db s now).1 = db := by
  cases hac : AbstractCodeVerify.check_is_valid ActionCode.code
      ActionCode.expires_at db.signupCodes s now with
  | error e => simp [SignupVerify.post, hac]
  | ok ac => exfalso; simp [SignupVerify.post, hac] at hf

/-- A failing password-reset consumption mutates nothing. -/
theorem passwordResetVerifyPost_failure_frame (db : DB) (s : String)
    (now : Nat) (body : Option String) (f : Failure)
    (hf : (PasswordResetVerify.post db s now body).2 = Except.error f) :
    (PasswordResetVerify.post db s now body).1 = db := by
  cases hac : AbstractCodeVerify.check_is_valid ActionCode.code
      ActionCode.expires_at db.passwordResetCodes s now with
  | error e => simp [PasswordResetVerify.post, hac]
  | ok ac =>
      cases body with
      | none => simp [PasswordResetVerify.post, hac]
      | some pw => exfalso; simp [PasswordResetVerify.post, hac] at hf

/-- A failing email-change consumption mutates nothing: in particular the
`EmailTaken` re-check failure happens before the unverified-holder
deletion and the requester update. -/
theorem emailChangeVerifyPost_failure_frame (db : DB) (s : String)
    (now : Nat) (f : Failure)
    (hf : (EmailChangeVerify.post db s now).2 = Except.error f) :
    (EmailChangeVerify.post db s now).1 = db := by
  cases hac : AbstractCodeVerify.check_is_valid EmailChangeCode.code
      EmailChangeCode.expires_at db.emailChangeCodes s now with
  | error e => simp [EmailChangeVerify.post, hac]
  | ok ac =>
      cases hholder : db.users.find? (fun u => u.email == ac.new_email) with
      | none => exfalso; simp [EmailChangeVerify.post, hac, hholder] at hf
      | some u =>
          by_cases hv : u.is_verified = true
          · simp [EmailChangeVerify.post, hac, hholder, hv]
          · exfalso
            simp only [Bool.not_eq_true] at hv
            simp [EmailChangeVerify.post, hac, hholder, hv] at hf

/-- A failing password change mutates nothing. -/
theorem passwordChangePost_failure_frame (db : DB)
    (inp : PasswordChangeInput) (f : Failure)
    (hf : (PasswordChange.post db inp).2 = Except.error f) :
    (PasswordChange.post db inp).1 = db := by
  by_cases hv : inp.valid = true
  · cases hfind : db.users.find? (fun u => u.id == inp.requesterId) with
    | none => simp [PasswordChange.post, hv, hfind]
    | some u =>
        by_cases hpw : (u.password == inp.password) = true
        · exfalso; simp [PasswordChange.post, hv, hfind, hpw] at hf
        · simp only [Bool.not_eq_true] at hpw
          simp [PasswordChange.post, hv, hfind, hpw]
  · simp only [Bool.not_eq_true] at hv
    simp [PasswordChange.post, hv]

/-- A failing login mutates nothing. -/
theorem loginPost_failure_frame (db : DB) (inp : LoginInput) (f : Failure)
    (hf : (Login.post db inp).2 = Except.error f) :
    (Login.post db inp).1 = db := by
  by_cases hv : inp.valid = true
  · cases hfind : db.users.find?
        (fun u => u.email == inp.email && u.password == inp.password) with
    | none => simp [Login.post, hv, hfind]
    | some u =>
        by_cases hvf : u.is_verified = true
        · by_cases ha : u.is_active = true
          · exfalso
            cases htok : db.tokens.find? (fun t => t.1 == u.id) with
            | none => simp [Login.post, hv, hfind, hvf, ha, htok] at hf
            | some t => simp [Login.post, hv, hfind, hvf, ha, htok] at hf
          · simp only [Bool.not_eq_true] at ha
            simp [Login.post, hv, hfind, hvf, ha]
        · simp only [Bool.not_eq_true] at hvf
          simp [Login.post, hv, hfind, hvf]
  · simp only [Bool.not_eq_true] at hv
    simp [Login.post, hv]

def siBad : SignupInput :=
  { email := "z@x", link := "", signupValid := true, userValid := false,
    newUserId := 9, newCode := "sc1", expires_at := 9, ipaddr := "ip" }

/-- C8 counterexample: a signup request for a fresh address whose user
serializer rejects the body returns a failure, yet the request has
already created the user stub: the claim "whenever an operation returns a
failure result, no user row has been created" is false on the code. -/
theorem C8_counterexample :
    (Signup.post dbW2 siBad).2 = Except.error Failure.badInput
  ∧ (Signup.post dbW2 siBad).1 ≠ dbW2
  ∧ (Signup.post dbW2 siBad).1.users.length = dbW2.users.length + 1 := by
  refine ⟨rfl, by decide, rfl⟩

/-- C8 (amended): whenever an operation returns a failure result the
state is unchanged — no user row created, deleted or modified, no code
row created or deleted — except signup: there a failure may additionally
leave behind exactly the freshly created unverified user stub (the
`get_or_create` in `check_verified_users` runs before the user-serializer
validation). -/
theorem C8_failure_frame (db : DB) (si : SignupInput)
    (pri : PasswordResetInput) (eci : EmailChangeInput)
    (pci : PasswordChangeInput) (li : LoginInput) (s : String) (now : Nat)
    (body : Option String) :
    (∀ f, (Signup.post db si).2 = Except.error f →
      (Signup.post db si).1 = db
      ∨ (f = Failure.badInput ∧ (Signup.post db si).1 =
          { db with users := db.users ++
            [{ id := si.newUserId, email := si.email, is_verified := false,
               is_active := true, password := "" }] }))
  ∧ (∀ f, (PasswordReset.post db pri).2 = Except.error f →
      (PasswordReset.post db pri).1 = db)
  ∧ (∀ f, (EmailChange.post db eci).2 = Except.error f →
      (EmailChange.post db eci).1 = db)
  ∧ (∀ f, (SignupVerify.post db s now).2 = Except.error f →
      (SignupVerify.post db s now).1 = db)
  ∧ (∀ f, (PasswordResetVerify.post db s now body).2 = Except.error f →
      (PasswordResetVerify.post db s now body).1 = db)
  ∧ (∀ f, (EmailChangeVerify.post db s now).2 = Except.error f →
      (EmailChangeVerify.post db s now).1 = db)
  ∧ (∀ f, (PasswordChange.post db pci).2 = Except.error f →
      (PasswordChange.post db pci).1 = db)
  ∧ (∀ f, (Login.post db li).2 = Except.error f →
      (Login.post db li).1 = db) :=
  ⟨fun f hf => signupPost_failure_frame db si f hf,
   fun f hf => passwordResetPost_failure_frame db pri f hf,
   fun f hf => emailChangePost_failure_frame db eci f hf,
   fun f hf => signupVerifyPost_failure_frame db s now f hf,
   fun f hf => passwordResetVerifyPost_failure_frame db s now body f hf,
   fun f hf => emailChangeVerifyPost_failure_frame db s now f hf,
   fun f hf => passwordChangePost_failure_frame db pci f hf,
   fun f hf => loginPost_failure_frame db li f hf⟩

def eciBad : EmailChangeInput :=
  { requesterId := 1, new_email := "v@x", link := "", valid := true,
    newCode := "ec9", expires_at := 9, ipaddr := "ip" }

def pciBad : PasswordChangeInput :=
  { requesterId := 1, password := "wrong", new_password := "n",
    valid := true }

def liBad : LoginInput :=
  { email := "a@x", password := "wrong", valid := true,
    newTokenKey := "t1" }

/-- C8 witness: on `dbW2`, one concrete failing request of every
operation leaves the state unchanged, except the failing signup, which
leaves exactly the fresh stub behind. -/
theorem C8_failure_frame_witness :
    ((Signup.post dbW2 siBad).1 = dbW2
      ∨ (Failure.badInput = Failure.badInput ∧ (Signup.post dbW2 siBad).1 =
          { dbW2 with users := dbW2.users ++
            [{ id := siBad.newUserId, email := siBad.email,
               is_verified := false, is_active := true, password := "" }] }))
  ∧ (PasswordReset.post dbW2 (priW "z@x")).1 = dbW2
  ∧ (EmailChange.post dbW2 eciBad).1 = dbW2
  ∧ (SignupVerify.post dbW2 "zz" 0).1 = dbW2
  ∧ (PasswordResetVerify.post dbW2 "zz" 0 (some "np")).1 = dbW2
  ∧ (EmailChangeVerify.post dbW2 "zz" 0).1 = dbW2
  ∧ (PasswordChange.post dbW2 pciBad).1 = dbW2
  ∧ (Login.post dbW2 liBad).1 = dbW2 := by
  have h := C8_failure_frame dbW2 siBad (priW "z@x") eciBad pciBad liBad
    "zz" 0 (some "np")
  exact ⟨h.1 Failure.badInput rfl, h.2.1 Failure.notAllowed rfl,
    h.2.2.1 Failure.emailTaken rfl,
    h.2.2.2.1 (Failure.invalidCode InvalidCode.notFound) rfl,
    h.2.2.2.2.1 (Failure.invalidCode InvalidCode.notFound) rfl,
    h.2.2.2.2.2.1 (Failure.invalidCode InvalidCode.notFound) rfl,
    h.2.2.2.2.2.2.1 Failure.passwordMismatch rfl,
    h.2.2.2.2.2.2.2 Failure.invalidCredentials rfl⟩

/-- C10: the authenticated password change with matching current password
succeeds, sets the requester's password credential to the new value, and
leaves the token store untouched: the token list after the request is the
very list from before, so every previously valid bearer token is still
valid and none was created or deleted. -/
theorem C10_password_change_token_frame (db : DB)
    (inp : PasswordChangeInput) (u : User) (hv : inp.valid = true)
    (hfind : db.users.find? (fun v => v.id == inp.requesterId) = some u)
    (hpw : u.password = inp.password) :
    (PasswordChange.post db inp).2 = Except.ok "Password has been changed."
  ∧ (PasswordChange.post db inp).1.tokens = db.tokens
  ∧ ((PasswordChange.post db inp).1.users.all
      (fun v => !(v.id == inp.requesterId)
        || (v.password == inp.new_password))) = true := by
  have hbeq : (u.password == inp.password) = true := by simp [hpw]
  refine ⟨?_, ?_, ?_⟩
  · simp [PasswordChange.post, hv, hfind, hbeq]
  · simp [PasswordChange.post, hv, hfind, hbeq, change_user_password]
  · simp only [PasswordChange.post, hv, hfind, hbeq, Bool.not_true,
      Bool.false_eq_true, if_false, change_user_password]
    rw [List.all_eq_true]
    intro v hv'
    obtain ⟨w, hw, rfl⟩ := List.mem_map.mp hv'
    by_cases hwid : (w.id == inp.requesterId) = true
    · simp [hwid]
    · simp [hwid]

def dbW3 : DB :=
  { users := [userW2a, userW2b, userW2c], signupCodes := [],
    passwordResetCodes := [], emailChangeCodes := [],
    tokens := [(1, "tok")], outbox := [] }

def pciW : PasswordChangeInput :=
  { requesterId := 1, password := "p", new_password := "p2", valid := true }

/-- C10 witness: user 1 of `dbW3` changes the password with the correct
current password; the stored token list is unchanged and the new
credential is in place. -/
theorem C10_password_change_token_frame_witness :
    (PasswordChange.post dbW3 pciW).2 = Except.ok "Password has been changed."
  ∧ (PasswordChange.post dbW3 pciW).1.tokens = dbW3.tokens
  ∧ ((PasswordChange.post dbW3 pciW).1.users.all
      (fun v => !(v.id == pciW.requesterId)
        || (v.password == pciW.new_password))) = true :=
  C10_password_change_token_frame dbW3 pciW userW2a rfl rfl rfl
